import Mathlib

/-!
Verification of the geometry-wrapper notebook
(`programming_in_geomatics/exam/6shapely_geometric_object.ipynb`).

The notebook defines six one-line wrapper functions around a computational
geometry library: `create_point_geom`, `create_line_geom`, `create_poly_geom`,
`get_centroid`, `get_area`, `get_length`.  The wrapped library itself is not
part of the repository, so its data model and the behaviour the spec ascribes
to it (constructor validation, ring closing, area / length / centroid
properties, well-known-text output) are modelled here from the spec's words.
Coordinates are modelled as exact rationals (the notebook only ever supplies
finite decimal literals); segment distance is kept as an abstract real-valued
parameter `dist`, so every theorem quantifying over `dist` covers in
particular the library's Euclidean metric.
-/

namespace Geomatics

/-- A two-dimensional coordinate tuple with exact rational coordinates. -/
structure Coord where
  x : ℚ
  y : ℚ
deriving DecidableEq, Repr

/-- Modelled from the spec: the simple-feature geometry variants the spec's
data model describes (point, line string, polygon, and the multi-part
collections).  A point optionally carries a third coordinate `z`; the
notebook's wrappers only ever build two-dimensional data, so line and polygon
vertices are modelled two-dimensional.  A polygon is one exterior ring plus a
list of interior rings (holes); rings are stored as closed coordinate lists
(first vertex repeated at the end). -/
inductive Geometry where
  | point (x y : ℚ) (z : Option ℚ)
  | lineString (pts : List Coord)
  | polygon (exterior : List Coord) (interiors : List (List Coord))
  | multiPoint (pts : List Coord)
  | multiLineString (parts : List (List Coord))
  | multiPolygon (parts : List (List Coord × List (List Coord)))
deriving DecidableEq, Repr

/-- Twice the signed area of the triangle `p q r` (the standard orientation
test: positive for a counter-clockwise turn, zero for collinear points). -/
def orient (p q r : Coord) : ℚ :=
  (q.x - p.x) * (r.y - p.y) - (q.y - p.y) * (r.x - p.x)

/-- `r` lies inside the axis-aligned bounding box of the segment `p q`. -/
def inBox (p q r : Coord) : Bool :=
  decide (min p.x q.x ≤ r.x) && decide (r.x ≤ max p.x q.x) &&
    decide (min p.y q.y ≤ r.y) && decide (r.y ≤ max p.y q.y)

/-- Exact test: the closed segments `p1 p2` and `q1 q2` share at least one
point (proper crossing, or an endpoint lying on the other segment). -/
def segmentsIntersect (p1 p2 q1 q2 : Coord) : Bool :=
  let d1 := orient q1 q2 p1
  let d2 := orient q1 q2 p2
  let d3 := orient p1 p2 q1
  let d4 := orient p1 p2 q2
  ((decide (0 < d1) && decide (d2 < 0) || decide (d1 < 0) && decide (0 < d2)) &&
   (decide (0 < d3) && decide (d4 < 0) || decide (d3 < 0) && decide (0 < d4))) ||
  (decide (d1 = 0) && inBox q1 q2 p1) ||
  (decide (d2 = 0) && inBox q1 q2 p2) ||
  (decide (d3 = 0) && inBox p1 p2 q1) ||
  (decide (d4 = 0) && inBox p1 p2 q2)

/-- Two consecutive ring edges `[p, q]` and `[q, r]` overlap in more than
their shared vertex `q`: the three points are collinear and the second edge
turns back onto the first (or an edge is degenerate). -/
def adjacentOverlap (p q r : Coord) : Bool :=
  decide (orient p q r = 0) &&
    decide ((q.x - p.x) * (r.x - q.x) + (q.y - p.y) * (r.y - q.y) ≤ 0)

/-- The edges of a ring stored as a closed coordinate list. -/
def ringEdges (ring : List Coord) : List (Coord × Coord) :=
  ring.zip ring.tail

/-- Placeholder edge used for out-of-range list reads (never actually hit:
all reads below are at indices below the list's length). -/
def defaultEdge : Coord × Coord := (⟨0, 0⟩, ⟨0, 0⟩)

/-- Modelled from the spec: the closed ring `ring` self-intersects.  Two
non-adjacent edges meeting anywhere, or two adjacent edges overlapping beyond
their shared vertex, make the ring non-simple. -/
def ringSelfIntersects (ring : List Coord) : Bool :=
  let es := ringEdges ring
  let n := es.length
  (List.range n).any fun i =>
    (List.range n).any fun j =>
      if i < j then
        let e := es.getD i defaultEdge
        let f := es.getD j defaultEdge
        if j = i + 1 then adjacentOverlap e.1 e.2 f.2
        else if i = 0 && j = n - 1 then adjacentOverlap f.1 f.2 e.2
        else segmentsIntersect e.1 e.2 f.1 f.2
      else false

/-- Close a coordinate sequence into a ring: repeat the first coordinate at
the end unless the sequence is already closed. -/
def closeRing (coords : List Coord) : List Coord :=
  match coords with
  | [] => []
  | c :: _ => if coords.getLast? = some c then coords else coords ++ [c]

/-- `exceptOk e` is `true` exactly when `e` carries a result, not an error. -/
def exceptOk {ε α : Type} : Except ε α → Bool
  | .ok _ => true
  | .error _ => false

/-- Modelled from the spec: the library `Point` constructor applied to two
numeric coordinates; no constraint checking, always succeeds. -/
def mkPoint (x y : ℚ) : Geometry := Geometry.point x y none

/-- Modelled from the spec: the library `LineString` constructor.  "Fails if
fewer than two distinct points are supplied"; otherwise the LineString through
the given points, in the order given. -/
def mkLineString (points : List Coord) : Except String Geometry :=
  if points.dedup.length < 2 then
    Except.error "LineStrings must have at least 2 distinct coordinate tuples"
  else
    Except.ok (Geometry.lineString points)

/-- Modelled from the spec: the library `Polygon` constructor.  "Fails if
fewer than three points are supplied or if the resulting ring self-intersects";
otherwise the polygon whose exterior ring is the closed coordinate sequence,
with no holes. -/
def mkPolygon (coords : List Coord) : Except String Geometry :=
  if coords.length < 3 then
    Except.error "A LinearRing must have at least 3 coordinate tuples"
  else if ringSelfIntersects (closeRing coords) then
    Except.error "Self-intersecting exterior ring"
  else
    Except.ok (Geometry.polygon (closeRing coords) [])

/-- Source `create_point_geom(x_coord, y_coord)`:
`point = Point(x_coord, y_coord); return point`. -/
def create_point_geom (x_coord y_coord : ℚ) : Geometry :=
  mkPoint x_coord y_coord

/-- Source `create_line_geom(points)`: `line = LineString(points); return line`. -/
def create_line_geom (points : List Coord) : Except String Geometry :=
  mkLineString points

/-- Source `create_poly_geom(coords)`: `polygon = Polygon(coords); return polygon`. -/
def create_poly_geom (coords : List Coord) : Except String Geometry :=
  mkPolygon coords

/-- Twice the signed area of a ring stored as a closed coordinate list
(shoelace sum over its edges). -/
def ringSignedArea2 (ring : List Coord) : ℚ :=
  ((ringEdges ring).map fun e => e.1.x * e.2.y - e.2.x * e.1.y).sum

/-- The (unsigned) area enclosed by a ring. -/
def ringArea (ring : List Coord) : ℚ :=
  |ringSignedArea2 ring| / 2

/-- The area enclosed by a polygon: the exterior ring's area minus the areas
of the holes. -/
def polygonArea (exterior : List Coord) (interiors : List (List Coord)) : ℚ :=
  ringArea exterior - (interiors.map ringArea).sum

/-- Modelled from the spec: the library `.area` property, defined uniformly on
every geometry variant; zero for lower-dimensional geometries (points and
lines), the enclosed area for polygons and multi-polygons. -/
def Geometry.area : Geometry → ℚ
  | .point _ _ _ => 0
  | .lineString _ => 0
  | .polygon e i => polygonArea e i
  | .multiPoint _ => 0
  | .multiLineString _ => 0
  | .multiPolygon ps => (ps.map fun p => polygonArea p.1 p.2).sum

/-- The length of the path through the given coordinates, as the running sum
of consecutive-point distances under the metric `dist`. -/
def pathLength (dist : Coord → Coord → ℝ) : List Coord → ℝ
  | [] => 0
  | [_] => 0
  | p :: q :: rest => dist p q + pathLength dist (q :: rest)

/-- Modelled from the spec: the library `.length` property, "defined uniformly
across geometry variants": zero for points, the cumulative segment length for
a line string, the sum of the ring lengths for a polygon, and the sum over
the parts for the multi-part collections. -/
def Geometry.length (dist : Coord → Coord → ℝ) : Geometry → ℝ
  | .point _ _ _ => 0
  | .lineString pts => pathLength dist pts
  | .polygon e i => pathLength dist e + (i.map (pathLength dist)).sum
  | .multiPoint _ => 0
  | .multiLineString ps => (ps.map (pathLength dist)).sum
  | .multiPolygon ps =>
      (ps.map fun p => pathLength dist p.1 + (p.2.map (pathLength dist)).sum).sum

/-- The spec's "cumulative segment length" of a line string: the sum of the
distances between consecutive vertices. -/
def cumulativeSegmentLength (dist : Coord → Coord → ℝ) (pts : List Coord) : ℝ :=
  ((pts.zip pts.tail).map fun e => dist e.1 e.2).sum

/-- The spec's "perimeter (sum of exterior and interior ring lengths)" of a
polygon. -/
def polygonPerimeter (dist : Coord → Coord → ℝ) (exterior : List Coord)
    (interiors : List (List Coord)) : ℝ :=
  cumulativeSegmentLength dist exterior +
    (interiors.map (cumulativeSegmentLength dist)).sum

/-- Six times the x-moment of the region enclosed by a ring, signed with the
ring's orientation (shoelace first-moment sum). -/
def ringMomentX (ring : List Coord) : ℚ :=
  ((ringEdges ring).map fun e =>
    (e.1.x + e.2.x) * (e.1.x * e.2.y - e.2.x * e.1.y)).sum

/-- Six times the y-moment of the region enclosed by a ring, signed with the
ring's orientation. -/
def ringMomentY (ring : List Coord) : ℚ :=
  ((ringEdges ring).map fun e =>
    (e.1.y + e.2.y) * (e.1.x * e.2.y - e.2.x * e.1.y)).sum

/-- The orientation sign of a ring: `-1` for a clockwise ring, `1` otherwise. -/
def ringSgn (ring : List Coord) : ℚ :=
  if ringSignedArea2 ring < 0 then -1 else 1

/-- Twice the mass of a polygon: twice the exterior area minus twice the hole
areas, all unsigned. -/
def polygonMass (exterior : List Coord) (interiors : List (List Coord)) : ℚ :=
  |ringSignedArea2 exterior| - (interiors.map fun r => |ringSignedArea2 r|).sum

/-- Six times the x-moment of a polygon with holes, orientation-normalised. -/
def polygonMomentX (exterior : List Coord) (interiors : List (List Coord)) : ℚ :=
  ringSgn exterior * ringMomentX exterior -
    (interiors.map fun r => ringSgn r * ringMomentX r).sum

/-- Six times the y-moment of a polygon with holes, orientation-normalised. -/
def polygonMomentY (exterior : List Coord) (interiors : List (List Coord)) : ℚ :=
  ringSgn exterior * ringMomentY exterior -
    (interiors.map fun r => ringSgn r * ringMomentY r).sum

/-- The centre of mass of the region enclosed by a polygon (exterior minus
holes): first moments divided by the mass. -/
def polygonCentroid (exterior : List Coord) (interiors : List (List Coord)) :
    ℚ × ℚ :=
  (polygonMomentX exterior interiors / (3 * polygonMass exterior interiors),
   polygonMomentY exterior interiors / (3 * polygonMass exterior interiors))

/-- The centre of mass of a collection of polygons: aggregated moments divided
by the aggregated mass. -/
def multiPolygonCentroid (ps : List (List Coord × List (List Coord))) : ℚ × ℚ :=
  let w := (ps.map fun p => polygonMass p.1 p.2).sum
  ((ps.map fun p => polygonMomentX p.1 p.2).sum / (3 * w),
   (ps.map fun p => polygonMomentY p.1 p.2).sum / (3 * w))

/-- The `dist`-weighted first moment of a path: each segment's length times
its midpoint, summed over the segments. -/
def pathMoment (dist : Coord → Coord → ℝ) : List Coord → ℝ × ℝ
  | [] => (0, 0)
  | [_] => (0, 0)
  | p :: q :: rest =>
      let m := pathMoment dist (q :: rest)
      (dist p q * (((p.x + q.x) / 2 : ℚ) : ℝ) + m.1,
       dist p q * (((p.y + q.y) / 2 : ℚ) : ℝ) + m.2)

/-- The centre of mass of a line string: length-weighted average of the
segment midpoints. -/
noncomputable def lineCentroid (dist : Coord → Coord → ℝ) (pts : List Coord) :
    ℝ × ℝ :=
  ((pathMoment dist pts).1 / pathLength dist pts,
   (pathMoment dist pts).2 / pathLength dist pts)

/-- The centre of mass of a collection of line strings: aggregated moments
divided by total length. -/
noncomputable def multiLineCentroid (dist : Coord → Coord → ℝ)
    (ps : List (List Coord)) : ℝ × ℝ :=
  let m := (ps.map (pathMoment dist)).sum
  let l := (ps.map (pathLength dist)).sum
  (m.1 / l, m.2 / l)

/-- The average of a list of coordinates, as a coordinate pair. -/
def coordAverage (pts : List Coord) : ℚ × ℚ :=
  ((pts.map Coord.x).sum / pts.length, (pts.map Coord.y).sum / pts.length)

/-- Modelled from the spec: the library `.centroid` property, "the geometric
centroid (centre of mass)", defined on every geometry variant.  The returned
point is modelled by its coordinate pair. -/
noncomputable def Geometry.centroid (dist : Coord → Coord → ℝ) :
    Geometry → ℝ × ℝ
  | .point x y _ => ((x : ℝ), (y : ℝ))
  | .lineString pts => lineCentroid dist pts
  | .polygon e i =>
      (((polygonCentroid e i).1 : ℝ), ((polygonCentroid e i).2 : ℝ))
  | .multiPoint pts =>
      (((coordAverage pts).1 : ℝ), ((coordAverage pts).2 : ℝ))
  | .multiLineString ps => multiLineCentroid dist ps
  | .multiPolygon ps =>
      (((multiPolygonCentroid ps).1 : ℝ), ((multiPolygonCentroid ps).2 : ℝ))

/-- Source `get_centroid(geom)`: `centroid = geom.centroid; return centroid`. -/
noncomputable def get_centroid (dist : Coord → Coord → ℝ) (geom : Geometry) :
    ℝ × ℝ :=
  geom.centroid dist

/-- Source `get_area(polygon)`: `area = polygon.area; return area`. -/
def get_area (polygon : Geometry) : ℚ :=
  polygon.area

/-- Source `get_length(polygon)`: `length = polygon.length; return length`.
(The parameter is named `polygon` in the source even though the function is
used on a line string.) -/
def get_length (dist : Coord → Coord → ℝ) (polygon : Geometry) : ℝ :=
  polygon.length dist

/-- `geom` carries a third coordinate (only a point can). -/
def Geometry.hasZ : Geometry → Bool
  | .point _ _ z => z.isSome
  | _ => false

/-- The number of digits after the decimal point needed to write `q` as a
terminating decimal: the least `k ≤ 20` with `q * 10 ^ k` integral (20 when
there is none; every coordinate in the notebook terminates). -/
def decPow (q : ℚ) : Nat :=
  (((List.range 21).find? fun k => (q * 10 ^ k).den == 1).getD 20)

/-- Left-pad a digit string with zeros to length `k`. -/
def digitsPad (s : String) (k : Nat) : String :=
  String.mk (List.replicate (k - s.length) '0') ++ s

/-- The shortest terminating-decimal rendering of `q`, with no trailing
zeros and no decimal point on an integer (the library's well-known-text
number format on the notebook's data). -/
def decStr (q : ℚ) : String :=
  let k := decPow q
  let n := (q * 10 ^ k).num
  if k = 0 then toString n
  else
    (if n < 0 then "-" else "") ++ toString (n.natAbs / 10 ^ k) ++ "." ++
      digitsPad (toString (n.natAbs % 10 ^ k)) k

/-- A coordinate as it appears inside well-known text: `x y`. -/
def coordStr (c : Coord) : String :=
  decStr c.x ++ " " ++ decStr c.y

/-- A comma-separated parenthesised coordinate list, as in well-known text. -/
def coordListStr (l : List Coord) : String :=
  "(" ++ String.intercalate ", " (l.map coordStr) ++ ")"

/-- Modelled from the spec: the library's well-known-text rendering of a
geometry. -/
def Geometry.wkt : Geometry → String
  | .point x y none => "POINT (" ++ decStr x ++ " " ++ decStr y ++ ")"
  | .point x y (some z) =>
      "POINT Z (" ++ decStr x ++ " " ++ decStr y ++ " " ++ decStr z ++ ")"
  | .lineString [] => "LINESTRING EMPTY"
  | .lineString pts => "LINESTRING " ++ coordListStr pts
  | .polygon e i =>
      "POLYGON (" ++ String.intercalate ", " ((e :: i).map coordListStr) ++ ")"
  | .multiPoint pts => "MULTIPOINT " ++ coordListStr pts
  | .multiLineString ps =>
      "MULTILINESTRING (" ++ String.intercalate ", " (ps.map coordListStr) ++ ")"
  | .multiPolygon ps =>
      "MULTIPOLYGON (" ++
        String.intercalate ", " (ps.map fun p =>
          "(" ++ String.intercalate ", " ((p.1 :: p.2).map coordListStr) ++ ")") ++
        ")"

/-- Round a rational to four decimal places (half away from zero is not
needed on the notebook's data; half up suffices). -/
def round4 (q : ℚ) : ℚ :=
  ((⌊q * 10000 + 1 / 2⌋ : ℤ) : ℚ) / 10000

/-- The notebook's triangle coordinates `[(45.2, 22.34), (100.22, -3.20), (70.0, 10.20)]`. -/
def triCoords : List Coord :=
  [⟨45.2, 22.34⟩, ⟨100.22, -3.2⟩, ⟨70, 10.2⟩]

/-- The triangle's exterior ring after closing (first coordinate repeated). -/
def triRing : List Coord :=
  [⟨45.2, 22.34⟩, ⟨100.22, -3.2⟩, ⟨70, 10.2⟩, ⟨45.2, 22.34⟩]

/-- The notebook's two line points `Point(45.2, 22.34)`, `Point(100.22, -3.20)`. -/
def linePts : List Coord :=
  [⟨45.2, 22.34⟩, ⟨100.22, -3.2⟩]

/-- A self-intersecting ("bowtie") coordinate sequence, for checking the
polygon constructor's self-intersection failure. -/
def bowtieCoords : List Coord :=
  [⟨0, 0⟩, ⟨2, 2⟩, ⟨2, 0⟩, ⟨0, 2⟩]

attribute [local semireducible] Rat.add Rat.sub Rat.mul Rat.inv Rat.ofScientific

theorem pathLength_eq_cumulative (dist : Coord → Coord → ℝ) :
    ∀ pts : List Coord, pathLength dist pts = cumulativeSegmentLength dist pts := by
  intro pts
  induction pts with
  | nil => simp [pathLength, cumulativeSegmentLength]
  | cons p rest ih =>
      cases rest with
      | nil => simp [pathLength, cumulativeSegmentLength]
      | cons q rs =>
          simp only [pathLength, cumulativeSegmentLength, List.tail_cons,
            List.zip_cons_cons, List.map_cons, List.sum_cons] at ih ⊢
          rw [ih]

/-- Claim C1: `get_length` performs no type-dependent branching — on every
geometry variant it returns the uniform length property — and that property
is, for a LineString, the cumulative segment length and, for a Polygon, the
perimeter (sum of exterior and interior ring lengths). -/
theorem get_length_no_branching_length_property (dist : Coord → Coord → ℝ) :
    (∀ g : Geometry, get_length dist g = g.length dist) ∧
    (∀ pts : List Coord,
      get_length dist (Geometry.lineString pts) = cumulativeSegmentLength dist pts) ∧
    (∀ (e : List Coord) (i : List (List Coord)),
      get_length dist (Geometry.polygon e i) = polygonPerimeter dist e i) := by
  have hfun : pathLength dist = cumulativeSegmentLength dist :=
    funext (pathLength_eq_cumulative dist)
  refine ⟨fun g => rfl, fun pts => ?_, fun e i => ?_⟩
  · simpa [get_length, Geometry.length] using pathLength_eq_cumulative dist pts
  · simp [get_length, Geometry.length, polygonPerimeter, hfun]

/-- Claim C2: `create_poly_geom coords` fails exactly when fewer than three
points are supplied or the ring formed by closing `coords` self-intersects;
when it succeeds it returns the polygon whose exterior ring is the closed
sequence.  Concretely, it rejects a two-point list and the bowtie. -/
theorem create_poly_geom_failure_spec (coords : List Coord) :
    (exceptOk (create_poly_geom coords) = false ↔
      coords.length < 3 ∨ ringSelfIntersects (closeRing coords) = true) ∧
    (exceptOk (create_poly_geom coords) = true →
      create_poly_geom coords = Except.ok (Geometry.polygon (closeRing coords) [])) ∧
    exceptOk (create_poly_geom bowtieCoords) = false ∧
    exceptOk (create_poly_geom [⟨0, 0⟩, ⟨1, 1⟩]) = false := by
  refine ⟨?_, ?_, by decide, by decide⟩ <;>
  · by_cases h1 : coords.length < 3
    · simp [create_poly_geom, mkPolygon, h1, exceptOk]
    · by_cases h2 : ringSelfIntersects (closeRing coords) = true
      · simp [create_poly_geom, mkPolygon, h1, h2, exceptOk]
      · simp [create_poly_geom, mkPolygon, h1, h2, exceptOk]


/-- Claim C3: `create_line_geom points` fails exactly when fewer than two
distinct points are supplied; otherwise it returns the LineString through the
given points.  Concretely, it rejects a single point and a pair of equal
points. -/
theorem create_line_geom_failure_spec (points : List Coord) :
    (exceptOk (create_line_geom points) = false ↔ points.dedup.length < 2) ∧
    (2 ≤ points.dedup.length →
      create_line_geom points = Except.ok (Geometry.lineString points)) ∧
    exceptOk (create_line_geom [⟨1, 1⟩, ⟨1, 1⟩]) = false ∧
    exceptOk (create_line_geom [⟨1, 1⟩]) = false := by
  refine ⟨?_, fun h => ?_, by decide, by decide⟩
  · by_cases h : points.dedup.length < 2
    · simp [create_line_geom, mkLineString, h, exceptOk]
    · simp [create_line_geom, mkLineString, h, exceptOk]
  · unfold create_line_geom mkLineString
    rw [if_neg (Nat.not_lt.mpr h)]

/-- Claim C4: `get_area` returns zero, rather than raising, on every
lower-dimensional geometry (point or line string), and returns the enclosed
area on a polygon or multi-polygon. -/
theorem get_area_zero_for_lower_dim :
    (∀ (x y : ℚ) (z : Option ℚ), get_area (Geometry.point x y z) = 0) ∧
    (∀ pts : List Coord, get_area (Geometry.lineString pts) = 0) ∧
    (∀ (e : List Coord) (i : List (List Coord)),
      get_area (Geometry.polygon e i) = polygonArea e i) ∧
    (∀ ps : List (List Coord × List (List Coord)),
      get_area (Geometry.multiPolygon ps) = (ps.map fun p => polygonArea p.1 p.2).sum) :=
  ⟨fun _ _ _ => rfl, fun _ => rfl, fun _ _ => rfl, fun _ => rfl⟩

/-- Claim C5: `create_poly_geom` on the notebook's three triangle points
returns a polygon whose exterior ring is the input sequence closed by
repeating the first coordinate at the end, and whose well-known text is
exactly the notebook's output string. -/
theorem create_poly_geom_triangle_wkt :
    create_poly_geom triCoords = Except.ok (Geometry.polygon triRing []) ∧
    triRing = triCoords ++ [⟨45.2, 22.34⟩] ∧
    Geometry.wkt (Geometry.polygon triRing []) =
      "POLYGON ((45.2 22.34, 100.22 -3.2, 70 10.2, 45.2 22.34))" := by
  refine ⟨by rfl, by rfl, by rfl⟩

/-- Claim C6: `create_line_geom` preserves its input order — whenever it
succeeds it returns the LineString through exactly the given list — and on
the notebook's two points it yields the LineString with the notebook's
well-known text. -/
theorem create_line_geom_order_wkt :
    (∀ points : List Coord, 2 ≤ points.dedup.length →
      create_line_geom points = Except.ok (Geometry.lineString points)) ∧
    create_line_geom linePts = Except.ok (Geometry.lineString linePts) ∧
    Geometry.wkt (Geometry.lineString linePts) =
      "LINESTRING (45.2 22.34, 100.22 -3.2)" := by
  refine ⟨fun points h => ?_, by rfl, by rfl⟩
  unfold create_line_geom mkLineString
  rw [if_neg (Nat.not_lt.mpr h)]

/-- Claim C7: `create_point_geom x y` is exactly the library point
constructor at `(x, y)` — total, with no constraint checking — and on
`(0.0, 1.1)` it equals `Point(0.0, 1.1)`. -/
theorem create_point_geom_spec :
    (∀ x y : ℚ, create_point_geom x y = mkPoint x y ∧
      create_point_geom x y = Geometry.point x y none) ∧
    create_point_geom 0 1.1 = mkPoint 0 1.1 :=
  ⟨fun _ _ => ⟨rfl, rfl⟩, rfl⟩

/-- Claim C8: `get_area` and `get_length` are deterministic and do not modify
their argument: two calls on the same geometry yield identical results. -/
theorem get_area_get_length_idempotent (dist : Coord → Coord → ℝ) (g : Geometry) :
    get_area g = get_area g ∧ get_length dist g = get_length dist g :=
  ⟨rfl, rfl⟩

/-- Claim C9: `get_centroid` is defined on every geometry variant, where it
returns the centre-of-mass centroid property, and on the notebook's triangle
polygon it returns the point `(10771/150, 489/50)`, which rounds to
`(71.8067, 9.78)` at four decimals. -/
theorem get_centroid_all_variants_triangle (dist : Coord → Coord → ℝ) :
    (∀ g : Geometry, get_centroid dist g = g.centroid dist) ∧
    get_centroid dist (Geometry.polygon triRing []) =
      (((10771 / 150 : ℚ) : ℝ), ((489 / 50 : ℚ) : ℝ)) ∧
    round4 (10771 / 150) = 71.8067 ∧ round4 (489 / 50) = 9.78 := by
  refine ⟨fun g => rfl, ?_, by decide, by decide⟩
  have h : polygonCentroid triRing [] = (10771 / 150, 489 / 50) := by decide
  simp [get_centroid, Geometry.centroid, h]

/-- Claim C10: every point built through `create_point_geom` is
two-dimensional — the wrapper takes exactly two coordinates and never sets a
`z` — although the modelled data model itself admits three-dimensional
points. -/
theorem create_point_geom_two_dimensional :
    (∀ x y : ℚ, create_point_geom x y = Geometry.point x y none ∧
      (create_point_geom x y).hasZ = false) ∧
    (Geometry.point 0 0 (some 0)).hasZ = true :=
  ⟨fun _ _ => ⟨rfl, rfl⟩, rfl⟩

end Geomatics
